import Mathlib

/-!
# Ocelot tracker worker (`src/worker.cpp`, `src/worker.h`)

A shallow embedding of the request-serving worker: the torrent / user registry,
the `announce` and `scrape` handlers, the dispatcher `work`, the peer reaper and
the tracker status machine.

Conventions of the embedding.

* `std::string` is a Lean `String`; one character stands for one byte, so
  `std::string::length` is `String.length`.
* The associative containers (`torrent_list`, `user_list`, `peer_list`,
  `params_type`) are association lists in iteration order; `find` returns the
  first entry with the key.  Every list with pairwise different keys is a
  possible content of the container, and the theorems hold for all lists.
* `time(NULL)` is read from the clock; the value read is the argument `now`.
* The collaborators whose code is not in `worker.cpp` (HTTP parsing, passkey
  extraction, action classification, HMAC, URL decoding, the database loaders)
  are the fields of `externs`.
* `error(text, client_opts)` and `http_response(body, client_opts)` are declared
  in `response.h`; a response is represented by the call that builds it.
* Log lines are not part of the state, except the two counts that `reap_peers`
  reports, which it returns.
-/

namespace Ocelot

/-! ## Data model -/

/-- The tracker status of `worker.h`: `enum tracker_status { OPEN, PAUSED, CLOSING }`. -/
inductive tracker_status where
  | OPEN
  | PAUSED
  | CLOSING
  deriving DecidableEq, Repr

/-- Modelled from the spec: the request classes the dispatcher distinguishes
("exactly one of {ANNOUNCE, SCRAPE, INVALID}"); the enumeration that
`parse_action` returns is declared outside `worker.cpp`. -/
inductive action_t where
  | ANNOUNCE
  | SCRAPE
  | INVALID
  deriving DecidableEq, Repr

/-- Modelled from the spec: the per-connection options `client_opts_t` are
declared outside `worker.cpp`; the worker only hands them on to the response
builders, so they are kept as an uninterpreted token. -/
structure client_opts_t where
  token : Nat
  deriving DecidableEq, Repr

/-- Modelled from the spec: a peer record ("reported IP/port,
uploaded/downloaded/left byte counters, last-announced timestamp, visibility
flag"); the `peer` type is declared outside `worker.cpp`, which reads only
`last_announced` (a `time_t`). -/
structure peer where
  ip : String
  port : Nat
  uploaded : Nat
  downloaded : Nat
  left : Nat
  last_announced : Int
  visible : Bool
  deriving DecidableEq, Repr

/-- The container `peer_list`: peer-id to peer record. -/
abbrev peer_list := List (String × peer)

/-- Modelled from the spec: a torrent ("a set of seeder peers, a set of leecher
peers, a monotonically increasing completed-download counter, a freeleech
flag, last-activity timestamp"); the `torrent` type is declared outside
`worker.cpp`, which uses only `seeders` and `leechers`. -/
structure torrent where
  seeders : peer_list
  leechers : peer_list
  completed : Nat
  free_torrent : Bool
  last_flushed : Int
  deriving DecidableEq, Repr

/-- The container `torrent_list`: raw info-hash to torrent. -/
abbrev torrent_list := List (String × torrent)

/-- Modelled from the spec: a user ("permission/role flags relevant to peer
visibility and freeleech eligibility"); `user` and `user_ptr` are declared
outside `worker.cpp`, which only looks users up. -/
structure user where
  id : Nat
  leechstatus : Bool
  protect_ip : Bool
  deriving DecidableEq, Repr

/-- The container `user_list`: passkey to user. -/
abbrev user_list := List (String × user)

/-- The container `params_type`: parameter name to value. -/
abbrev params_type := List (String × String)

/-- Modelled from the spec: a deletion-reason record ("a human-readable message,
each with a creation timestamp"); `del_message` is declared outside
`worker.cpp`. -/
structure del_message where
  reason : Nat
  time : Int
  deriving DecidableEq, Repr

/-- The statistics object `stats` is a process-wide global declared outside
`worker.cpp`; these are the counters the worker increments. -/
structure stats_t where
  http_error : Nat
  auth_error_secret : Nat
  auth_error_announce_key : Nat
  deriving DecidableEq, Repr

/-- The configuration object: `conf->get_uint(key)` and `conf->get_str(key)`. -/
structure config where
  get_uint : String → Nat
  get_str : String → String

/-- A response, as the call that builds it: `http_response(body, client_opts)`
or `error(text, client_opts)`. -/
inductive response where
  | http_response (body : String) (client_opts : client_opts_t)
  | error (text : String) (client_opts : client_opts_t)
  deriving DecidableEq, Repr

/-- The collaborators that `worker.cpp` calls and does not define. -/
structure externs where
  /-- The target of the request that Boost.Beast parses out of the raw input. -/
  request_target : String → String
  extract_passkey : String → String
  parse_action : String → action_t
  generate_hmac : String → String → String
  hex_decode : String → String
  extract_peer_id : String → String
  load_freeleech : Int → Int
  load_torrents : torrent_list → torrent_list
  load_users : user_list → user_list
  load_whitelist : List String → List String

/-- The state of a `worker` (the members of `worker.h` that hold data), with
the two registries it refers to and the global `stats`.  The random generator
is left out: no function of `worker.cpp` draws from it. -/
structure worker where
  conf : config
  torrents_list : torrent_list
  users_list : user_list
  whitelist : List String
  del_reasons : List (String × del_message)
  status : tracker_status
  site_freeleech : Int
  reaper_active : Bool
  cur_time : Int
  announce_interval : Nat
  del_reason_lifetime : Nat
  peers_timeout : Nat
  numwant_limit : Nat
  keepalive_enabled : Bool
  site_password : String
  report_password : String
  jitter : Nat
  stats : stats_t

/-! ## Helpers standing for library calls -/

/-- The call `m.find(key)` on an associative container: the entry of the key, if any. -/
def find {α : Type} (m : List (String × α)) (key : String) : Option α :=
  match m with
  | [] => none
  | (k, v) :: rest => if k = key then some v else find rest key

/-- The call `params[key]`: the value of the key, the empty string when the key
is missing (`operator[]` then also stores the empty value in the map, which no
function of `worker.cpp` reads again). -/
def params_at (params : params_type) (key : String) : String :=
  match find params key with
  | some v => v
  | none => ""

/-- Decimal rendering of a count: `inttostr` and `std::to_string`. -/
def inttostr (n : Nat) : String := Nat.repr n

/-! ## `worker.cpp` -/

/-- The function `worker::load_config`. -/
def load_config (w : worker) (conf : config) : worker :=
  { w with
    announce_interval := conf.get_uint "announce_interval"
    del_reason_lifetime := conf.get_uint "del_reason_lifetime"
    peers_timeout := conf.get_uint "peers_timeout"
    numwant_limit := conf.get_uint "numwant_limit"
    keepalive_enabled := conf.get_uint "keepalive_timeout" != 0
    site_password := conf.get_str "site_password"
    report_password := conf.get_str "report_password"
    jitter := conf.get_uint "announce_jitter" }

/-- The function `worker::reload_config`. -/
def reload_config (w : worker) (conf : config) : worker :=
  load_config w conf

/-- The function `worker::reload_lists`: the status is set to `PAUSED`, the four
loaders run, the status is set to `OPEN`. -/
def reload_lists (E : externs) (w : worker) : worker :=
  let w1 := { w with status := tracker_status.PAUSED }
  let w2 := { w1 with site_freeleech := E.load_freeleech w1.site_freeleech }
  let w3 := { w2 with torrents_list := E.load_torrents w2.torrents_list }
  let w4 := { w3 with users_list := E.load_users w3.users_list }
  let w5 := { w4 with whitelist := E.load_whitelist w4.whitelist }
  { w5 with status := tracker_status.OPEN }

/-- The function `worker::shutdown`: the returned flag and the state after. -/
def shutdown (w : worker) : Bool × worker :=
  if w.status = tracker_status.OPEN then
    (false, { w with status := tracker_status.CLOSING })
  else if w.status = tracker_status.CLOSING then
    (true, w)
  else
    (false, w)

/-- The function `worker::announce`. -/
def announce (E : externs) (now : Int) (input : String) (u : user) (params : params_type)
    (headers : params_type) (ip : String) (client_opts : client_opts_t) (w : worker) :
    response × worker :=
  let w1 := { w with cur_time := now }
  let _peer_id_view := E.extract_peer_id input
  match find w1.torrents_list (E.hex_decode (params_at params "info_hash")) with
  | none => (response.error "Unregistered torrent" client_opts, w1)
  | some tor =>
    (response.http_response ("d8:completei" ++ inttostr tor.seeders.length ++ "e") client_opts, w1)

/-- The body of the loop of `worker::scrape`: one info-hash of the batch. -/
def scrape_step (E : externs) (torrents_list : torrent_list) (output : String)
    (infohash : String) : String :=
  let decoded_infohash := E.hex_decode infohash
  match find torrents_list decoded_infohash with
  | some torrent =>
    let output1 := output ++ (inttostr decoded_infohash.length ++ ":" ++ decoded_infohash)
    output1 ++ ("d8:completei" ++ inttostr torrent.seeders.length ++ "e10:incompletei"
      ++ inttostr torrent.leechers.length ++ "e")
  | none => output

/-- The loop of `worker::scrape` over the batch. -/
def scrape_loop (E : externs) (torrents_list : torrent_list) (output : String) :
    List String → String
  | [] => output
  | infohash :: rest => scrape_loop E torrents_list (scrape_step E torrents_list output infohash) rest

/-- The function `worker::scrape`. -/
def scrape (E : externs) (infohashes : List String) (headers : params_type)
    (client_opts : client_opts_t) (w : worker) : response × worker :=
  let output := "d5:filesd"
  let output1 := scrape_loop E w.torrents_list output infohashes
  let output2 := output1 ++ "ee"
  (response.http_response output2 client_opts, w)

/-- One of the two `while` loops of `worker::reap_peers` over a peer set, from
the iterator position on: an expired peer is erased and counted (the counter
is an `unsigned int`), any other peer is stepped over.  The result is the rest
of the container after the loop and the counter.  The test adds the `unsigned int`
timeout to a `time_t` in signed 64-bit arithmetic, whose overflow is undefined;
it is computed in the integers.  (The local flag `reaped` is written and never
read.) -/
def reap_loop (peers_timeout : Nat) (cur_time : Int) : peer_list → Nat → peer_list × Nat
  | [], reaped_n => ([], reaped_n)
  | (peer_id, p) :: rest, reaped_n =>
    if p.last_announced + (peers_timeout : Int) < cur_time then
      reap_loop peers_timeout cur_time rest ((reaped_n + 1) % 2 ^ 32)
    else
      let r := reap_loop peers_timeout cur_time rest reaped_n
      ((peer_id, p) :: r.1, r.2)

/-- The `for` loop of `worker::reap_peers` over the torrent table: the leechers
of a torrent are swept, then its seeders.  The result is the table after the
loop and the two counters `reaped_l`, `reaped_s`. -/
def reap_torrents (peers_timeout : Nat) (cur_time : Int) :
    torrent_list → Nat → Nat → torrent_list × Nat × Nat
  | [], reaped_l, reaped_s => ([], reaped_l, reaped_s)
  | (info_hash, tor) :: rest, reaped_l, reaped_s =>
    let l := reap_loop peers_timeout cur_time tor.leechers reaped_l
    let tor1 := { tor with leechers := l.1 }
    let s := reap_loop peers_timeout cur_time tor1.seeders reaped_s
    let tor2 := { tor1 with seeders := s.1 }
    let r := reap_torrents peers_timeout cur_time rest l.2 s.2
    ((info_hash, tor2) :: r.1, r.2.1, r.2.2)

/-- The function `worker::reap_peers`: the state after the sweep and the counts
`(reaped_l, reaped_s)` it reports. -/
def reap_peers (now : Int) (w : worker) : worker × Nat × Nat :=
  let w1 := { w with cur_time := now }
  let r := reap_torrents w1.peers_timeout w1.cur_time w1.torrents_list 0 0
  ({ w1 with torrents_list := r.1 }, r.2.1, r.2.2)

/-- Modelled from the spec: `worker::reap_del_reasons` is declared in `worker.h`
and defined outside `worker.cpp`.  The spec: "scan deletion-reason records and
evict those older than `del_reason_lifetime`". -/
def reap_del_reasons (now : Int) (w : worker) : worker :=
  { w with del_reasons :=
      w.del_reasons.filter (fun r => !decide (r.2.time + (w.del_reason_lifetime : Int) < now)) }

/-- The states that `worker::do_start_reaper` goes through: after the flag is
set, after `reap_peers`, after `reap_del_reasons`, after the flag is cleared. -/
def do_start_reaper_trace (now now_del : Int) (w : worker) : List worker :=
  let w1 := { w with reaper_active := true }
  let w2 := (reap_peers now w1).1
  let w3 := reap_del_reasons now_del w2
  let w4 := { w3 with reaper_active := false }
  [w1, w2, w3, w4]

/-- The function `worker::do_start_reaper`. -/
def do_start_reaper (now now_del : Int) (w : worker) : worker :=
  let w1 := { w with reaper_active := true }
  let w2 := (reap_peers now w1).1
  let w3 := reap_del_reasons now_del w2
  { w3 with reaper_active := false }

/-- The function `worker::start_reaper`.  The sweep runs in a detached thread;
here the thread runs to its end before anything else happens. -/
def start_reaper (now now_del : Int) (w : worker) : worker :=
  if !w.reaper_active then do_start_reaper now now_del w else w

/-- The function `worker::work`.  The names `params` and `headers` that the
function uses are not declared in it; they are taken as given. -/
def work (E : externs) (now : Int) (params headers : params_type) (input : String)
    (ip : String) (client_opts : client_opts_t) (w : worker) : response × worker :=
  let target := E.request_target input
  if input.length < 60 then
    (response.error "GET string too short" client_opts,
      { w with stats := { w.stats with http_error := w.stats.http_error + 1 } })
  else
    let passkey := E.extract_passkey target
    if passkey = "" then
      (response.error "Malformed announce" client_opts, w)
    else
      let action := E.parse_action target
      if action = action_t.INVALID then
        (response.error "Invalid action" client_opts,
          { w with stats := { w.stats with http_error := w.stats.http_error + 1 } })
      else
        let expected_hmac := E.generate_hmac input (w.conf.get_str "hmac_key")
        if params_at params "hmac" ≠ expected_hmac then
          (response.error "Authentication failure" client_opts,
            { w with stats := { w.stats with auth_error_secret := w.stats.auth_error_secret + 1 } })
        else if action = action_t.ANNOUNCE then
          match find w.users_list passkey with
          | none =>
            (response.error "Passkey not found" client_opts,
              { w with stats :=
                  { w.stats with auth_error_announce_key := w.stats.auth_error_announce_key + 1 } })
          | some u => announce E now target u params headers ip client_opts w
        else
          (response.http_response "success" client_opts, w)

/-! ## The public operations as a transition system -/

/-- A call of a public member function of `worker`, with its arguments and the
clock values it reads. -/
inductive op where
  | shutdown
  | reload_lists
  | reload_config (conf : config)
  | start_reaper (now now_del : Int)
  | work (now : Int) (params headers : params_type) (input ip : String) (client_opts : client_opts_t)
  | announce (now : Int) (input : String) (u : user) (params headers : params_type) (ip : String)
      (client_opts : client_opts_t)
  | scrape (infohashes : List String) (headers : params_type) (client_opts : client_opts_t)

/-- Whether the call is `reload_lists`. -/
def op.is_reload : op → Bool
  | op.reload_lists => true
  | _ => false

/-- The state after one public call. -/
def apply_op (E : externs) (w : worker) : op → worker
  | op.shutdown => (shutdown w).2
  | op.reload_lists => reload_lists E w
  | op.reload_config conf => reload_config w conf
  | op.start_reaper now now_del => start_reaper now now_del w
  | op.work now params headers input ip client_opts =>
    (work E now params headers input ip client_opts w).2
  | op.announce now input u params headers ip client_opts =>
    (announce E now input u params headers ip client_opts w).2
  | op.scrape infohashes headers client_opts => (scrape E infohashes headers client_opts w).2

/-- The state after a sequence of public calls. -/
def run_ops (E : externs) (w : worker) (ops : List op) : worker :=
  ops.foldl (apply_op E) w

/-! ## Properties of the registry -/

/-- No peer-id is a key of both the seeder set and the leecher set of a torrent. -/
def torrent_disjoint (tor : torrent) : Prop :=
  ∀ s ∈ tor.seeders, ∀ l ∈ tor.leechers, s.1 ≠ l.1

/-- Every torrent of the table has disjoint peer sets. -/
def peers_disjoint (torrents_list : torrent_list) : Prop :=
  ∀ e ∈ torrents_list, torrent_disjoint e.2

instance (tor : torrent) : Decidable (torrent_disjoint tor) := by
  unfold torrent_disjoint; infer_instance

instance (torrents_list : torrent_list) : Decidable (peers_disjoint torrents_list) := by
  unfold peers_disjoint; infer_instance

/-- Whether the peer is expired at the sweep time: the test of `reap_peers`. -/
def expired (peers_timeout : Nat) (now : Int) (p : peer) : Prop :=
  p.last_announced + (peers_timeout : Int) < now

instance (peers_timeout : Nat) (now : Int) (p : peer) : Decidable (expired peers_timeout now p) := by
  unfold expired; infer_instance

/-- The peers a sweep keeps: those that are not expired. -/
def survivors (peers_timeout : Nat) (now : Int) (peers : peer_list) : peer_list :=
  peers.filter (fun e => !decide (expired peers_timeout now e.2))

/-- A torrent after a sweep, as the survivors of its two sets. -/
def swept (peers_timeout : Nat) (now : Int) (tor : torrent) : torrent :=
  { tor with
    leechers := survivors peers_timeout now tor.leechers
    seeders := survivors peers_timeout now tor.seeders }

/-- The entry that the loop of `scrape` appends for a registered info-hash:
the two `output +=` statements, for the decoded key and its torrent. -/
def scrape_entry (decoded_infohash : String) (tor : torrent) : String :=
  (inttostr decoded_infohash.length ++ ":" ++ decoded_infohash)
    ++ ("d8:completei" ++ inttostr tor.seeders.length ++ "e10:incompletei"
      ++ inttostr tor.leechers.length ++ "e")

/-- Whether the decoded info-hash is a key of the torrent table. -/
def registered (torrents_list : torrent_list) (decoded_infohash : String) : Bool :=
  (find torrents_list decoded_infohash).isSome

/-- The pairs of decoded info-hash and torrent for which the loop of `scrape`
appends an entry, in the order of the batch. -/
def emitted (E : externs) (torrents_list : torrent_list) : List String → List (String × torrent)
  | [] => []
  | infohash :: rest =>
    match find torrents_list (E.hex_decode infohash) with
    | some tor => (E.hex_decode infohash, tor) :: emitted E torrents_list rest
    | none => emitted E torrents_list rest

/-- The strings of a list one after the other. -/
def concat_all : List String → String
  | [] => ""
  | s :: rest => s ++ concat_all rest

/-! ## Bencode

The wire format of the response bodies: integers `i<digits>e`, byte strings
`<length>:<bytes>`, lists `l<values>e`, dictionaries `d(<string><value>)*e`. -/

/-- A bencoded value. -/
inductive bvalue where
  | int (n : Int)
  | str (s : List Char)
  | list (items : List bvalue)
  | dict (entries : List (List Char × bvalue))

/-- The leading decimal digits of the input and the rest. -/
def take_digits : List Char → List Char × List Char
  | [] => ([], [])
  | c :: cs =>
    if c.isDigit then
      let r := take_digits cs
      (c :: r.1, r.2)
    else ([], c :: cs)

/-- The number that a list of decimal digits writes. -/
def digits_value (ds : List Char) : Nat :=
  ds.foldl (fun n c => 10 * n + (c.toNat - 48)) 0

/-- A byte string `<length>:<bytes>` at the head of the input. -/
def bdecode_string (cs : List Char) : Option (List Char × List Char) :=
  let d := take_digits cs
  if d.1 = [] then none
  else
    match d.2 with
    | [] => none
    | c :: rest =>
      if c = ':' then
        if digits_value d.1 ≤ rest.length then
          some (rest.take (digits_value d.1), rest.drop (digits_value d.1))
        else none
      else none

/-- The digits and the closing `e` of an integer, after its sign. -/
def bdecode_nat (cs : List Char) : Option (Nat × List Char) :=
  let d := take_digits cs
  if d.1 = [] then none
  else
    match d.2 with
    | [] => none
    | c :: rest => if c = 'e' then some (digits_value d.1, rest) else none

/-- An integer, after its opening `i`. -/
def bdecode_int (cs : List Char) : Option (Int × List Char) :=
  match cs with
  | [] => none
  | c :: rest =>
    if c = '-' then
      match bdecode_nat rest with
      | some (n, r) => some (-(n : Int), r)
      | none => none
    else
      match bdecode_nat (c :: rest) with
      | some (n, r) => some ((n : Int), r)
      | none => none

mutual
/-- One bencoded value at the head of the input, and the rest of the input.
The fuel bounds the number of nested calls; the length of the input is enough. -/
def bdecode_value : Nat → List Char → Option (bvalue × List Char)
  | 0, _ => none
  | _ + 1, [] => none
  | fuel + 1, c :: cs =>
    if c = 'i' then
      match bdecode_int cs with
      | some (n, r) => some (bvalue.int n, r)
      | none => none
    else if c = 'l' then
      match bdecode_items fuel cs with
      | some (vs, r) => some (bvalue.list vs, r)
      | none => none
    else if c = 'd' then
      match bdecode_entries fuel cs with
      | some (es, r) => some (bvalue.dict es, r)
      | none => none
    else
      match bdecode_string (c :: cs) with
      | some (s, r) => some (bvalue.str s, r)
      | none => none
/-- The values of a list up to its closing `e`. -/
def bdecode_items : Nat → List Char → Option (List bvalue × List Char)
  | 0, _ => none
  | _ + 1, [] => none
  | fuel + 1, c :: cs =>
    if c = 'e' then some ([], cs)
    else
      match bdecode_value fuel (c :: cs) with
      | none => none
      | some (v, r) =>
        match bdecode_items fuel r with
        | some (vs, r2) => some (v :: vs, r2)
        | none => none
/-- The key-value pairs of a dictionary up to its closing `e`. -/
def bdecode_entries : Nat → List Char → Option (List (List Char × bvalue) × List Char)
  | 0, _ => none
  | _ + 1, [] => none
  | fuel + 1, c :: cs =>
    if c = 'e' then some ([], cs)
    else
      match bdecode_string (c :: cs) with
      | none => none
      | some (k, r) =>
        match bdecode_value fuel r with
        | none => none
        | some (v, r2) =>
          match bdecode_entries fuel r2 with
          | some (es, r3) => some ((k, v) :: es, r3)
          | none => none
end

/-- The value that the whole string encodes, with nothing left over. -/
def bdecode (s : String) : Option bvalue :=
  match bdecode_value (s.length + 1) s.data with
  | some (v, []) => some v
  | _ => none

/-- Whether the value is a dictionary. -/
def bvalue.is_dict : bvalue → Bool
  | bvalue.dict _ => true
  | _ => false

/-- The shape of a scrape body: the string decodes, with nothing left over, to
a dictionary with the single key `files`, which maps to a dictionary all of
whose values are dictionaries. -/
def scrape_body_wellformed (body : String) : Bool :=
  match bdecode body with
  | some (bvalue.dict [(k, bvalue.dict files)]) =>
    decide (k = "files".data) && files.all (fun e => e.2.is_dict)
  | _ => false

/-- The body of a response built by `http_response`, if it is one. -/
def response_body : response → Option String
  | response.http_response body _ => some body
  | response.error _ _ => none

/-! ## A concrete tracker

A small registry and simple stand-ins for the collaborators, used to evaluate
the handlers on concrete requests. -/

/-- The part of a request line between its first and its second blank: the target. -/
def demo_target (input : String) : String :=
  String.mk (((input.data.dropWhile (fun c => c != ' ')).drop 1).takeWhile (fun c => c != ' '))

/-- The first path segment of a target `/<passkey>/...`. -/
def demo_passkey (target : String) : String :=
  String.mk ((target.data.drop 1).takeWhile (fun c => c != '/'))

/-- The route of a target `/<passkey>/<route>...`. -/
def demo_action (target : String) : action_t :=
  let route := (target.data.drop 1).dropWhile (fun c => c != '/')
  if "/announce".data.isPrefixOf route then action_t.ANNOUNCE
  else if "/scrape".data.isPrefixOf route then action_t.SCRAPE
  else action_t.INVALID

/-- Stand-ins for the collaborators: the authentication code of a request is
the key itself, the decoder is the identity (right for text without escapes),
the loaders leave the tables as they are. -/
def demo_externs : externs where
  request_target := demo_target
  extract_passkey := demo_passkey
  parse_action := demo_action
  generate_hmac := fun _ key => key
  hex_decode := fun s => s
  extract_peer_id := fun _ => ""
  load_freeleech := fun x => x
  load_torrents := fun x => x
  load_users := fun x => x
  load_whitelist := fun x => x

/-- A configuration with the secret `k` and a peer timeout of 60 seconds. -/
def demo_conf : config where
  get_uint := fun key => if key = "peers_timeout" then 60 else 0
  get_str := fun key => if key = "hmac_key" then "k" else ""

/-- A peer last heard of at the given time. -/
def demo_peer (last_announced : Int) : peer where
  ip := "10.0.0.1"
  port := 6881
  uploaded := 0
  downloaded := 0
  left := 0
  last_announced := last_announced
  visible := true

/-- Info-hash of the torrent with peers. -/
def hash_A : String := "AAAAAAAAAAAAAAAAAAAA"

/-- Info-hash of no torrent of the registry. -/
def hash_B : String := "BBBBBBBBBBBBBBBBBBBB"

/-- Info-hash of the torrent without peers. -/
def hash_C : String := "CCCCCCCCCCCCCCCCCCCC"

/-- A torrent with one seeder and two leechers, 7 completed downloads. -/
def demo_torrent : torrent where
  seeders := [("S1", demo_peer 980)]
  leechers := [("L1", demo_peer 990), ("L2", demo_peer 100)]
  completed := 7
  free_torrent := false
  last_flushed := 0

/-- A torrent with 0 seeders and 0 leechers. -/
def empty_torrent : torrent where
  seeders := []
  leechers := []
  completed := 0
  free_torrent := false
  last_flushed := 0

/-- A worker in status `OPEN` with two torrents and one user. -/
def demo_worker : worker where
  conf := demo_conf
  torrents_list := [(hash_A, demo_torrent), (hash_C, empty_torrent)]
  users_list := [("pk", { id := 1, leechstatus := true, protect_ip := false })]
  whitelist := []
  del_reasons := []
  status := tracker_status.OPEN
  site_freeleech := 0
  reaper_active := false
  cur_time := 0
  announce_interval := 1800
  del_reason_lifetime := 86400
  peers_timeout := 60
  numwant_limit := 50
  keepalive_enabled := false
  site_password := ""
  report_password := ""
  jitter := 0
  stats := { http_error := 0, auth_error_secret := 0, auth_error_announce_key := 0 }

/-- The same worker in status `CLOSING`. -/
def closing_worker : worker :=
  { demo_worker with status := tracker_status.CLOSING }

/-- The user of the registry. -/
def demo_user : user := { id := 1, leechstatus := true, protect_ip := false }

/-- The client options of the concrete requests. -/
def demo_opts : client_opts_t := { token := 0 }

/-- Parameters of an announce with `left=0` from the new peer `P1` on the torrent
without peers. -/
def first_params : params_type :=
  [("hmac", "k"), ("info_hash", hash_C), ("peer_id", "P1"), ("left", "0")]

/-- Parameters of an announce with `left=100` from the new peer `P2` on the same torrent. -/
def second_params : params_type :=
  [("hmac", "k"), ("info_hash", hash_C), ("peer_id", "P2"), ("left", "100")]

/-- Parameters of an announce on an info-hash that is not registered. -/
def unregistered_params : params_type :=
  [("hmac", "k"), ("info_hash", hash_B), ("peer_id", "P1"), ("left", "0")]

/-- The result of the first announce of the scenario, at time 1000. -/
def first_announce : response × worker :=
  announce demo_externs 1000 "/pk/announce" demo_user first_params [] "10.0.0.9" demo_opts
    demo_worker

/-- The result of the second announce of the scenario, at time 1001, on the state
the first one left. -/
def second_announce : response × worker :=
  announce demo_externs 1001 "/pk/announce" demo_user second_params [] "10.0.0.8" demo_opts
    first_announce.2

/-- A request of 40 bytes. -/
def short_input : String := "GET /pk/announce?info_hash=AAAA HTTP/1.1"

/-- A request of 72 bytes whose target has an empty passkey. -/
def nopasskey_input : String :=
  "GET //announce?info_hash=AAAAAAAAAAAAAAAAAAAA&peer_id=P1&left=0 HTTP/1.1"

/-- A request of 72 bytes whose route is neither announce nor scrape. -/
def badaction_input : String :=
  "GET /pk/update?info_hash=AAAAAAAAAAAAAAAAAAAA&peer_id=P1&left=0 HTTP/1.1"

/-- A request of 74 bytes announcing on an info-hash that is not registered. -/
def unregistered_input : String :=
  "GET /pk/announce?info_hash=BBBBBBBBBBBBBBBBBBBB&peer_id=P1&left=0 HTTP/1.1"

/-- The body that `scrape` builds for the batch `[hash_A]` on the concrete registry. -/
def body_A : String := "d5:filesd20:AAAAAAAAAAAAAAAAAAAAd8:completei1e10:incompletei2eee"

/-- A scrape request of 85 bytes with the passkey `zz`, which is not in the user table. -/
def scrape_unknown_input : String :=
  "GET /zz/scrape?info_hash=AAAAAAAAAAAAAAAAAAAA&info_hash=BBBBBBBBBBBBBBBBBBBB HTTP/1.1"

/-- An announce request of 74 bytes with the passkey `zz`, which is not in the user table. -/
def announce_unknown_input : String :=
  "GET /zz/announce?info_hash=AAAAAAAAAAAAAAAAAAAA&peer_id=P1&left=0 HTTP/1.1"

/-- A scrape request of 85 bytes with the passkey `pk` of the registered user, for the
info-hashes `hash_A` and `hash_B`. -/
def scrape_known_input : String :=
  "GET /pk/scrape?info_hash=AAAAAAAAAAAAAAAAAAAA&info_hash=BBBBBBBBBBBBBBBBBBBB HTTP/1.1"

/-- An announce request of 74 bytes from the seeder `S1` of the torrent `hash_A`. -/
def reannounce_input : String :=
  "GET /pk/announce?info_hash=AAAAAAAAAAAAAAAAAAAA&peer_id=S1&left=0 HTTP/1.1"

/-- Parameters of a request that carries the right authentication code and no more. -/
def plain_params : params_type := [("hmac", "k")]

/-- Parameters of an announce from the seeder `S1` of the torrent `hash_A`. -/
def reannounce_params : params_type :=
  [("hmac", "k"), ("info_hash", hash_A), ("peer_id", "S1"), ("left", "0")]

/-- The result of an announce of `S1` on `hash_A` at time 1000. -/
def reannounce_first : response × worker :=
  announce demo_externs 1000 "/pk/announce" demo_user reannounce_params [] "10.0.0.1" demo_opts
    demo_worker

/-- The result of the same announce again, at time 1001, on the state the first one left. -/
def reannounce_second : response × worker :=
  announce demo_externs 1001 "/pk/announce" demo_user reannounce_params [] "10.0.0.1" demo_opts
    reannounce_first.2

/-- The number of leechers of all torrents of the table. -/
def total_leechers (torrents_list : torrent_list) : Nat :=
  (torrents_list.map (fun e => e.2.leechers.length)).sum

/-- The number of seeders of all torrents of the table. -/
def total_seeders (torrents_list : torrent_list) : Nat :=
  (torrents_list.map (fun e => e.2.seeders.length)).sum

/-- A leecher set of 2^32 peers, keyed by the decimal numerals of 0 to 2^32 - 1,
all last heard of at time 0. -/
def many_leechers : peer_list :=
  (List.range (2 ^ 32)).map (fun i => (Nat.repr i, demo_peer 0))

/-- A worker whose only torrent has the 2^32 leechers of `many_leechers` and no seeder. -/
def crowded_worker : worker :=
  { demo_worker with
    torrents_list := [(hash_A, { demo_torrent with seeders := [], leechers := many_leechers })] }

/-- A batch that names `hash_C` twice, around `hash_A`. -/
def repeated_batch : List String := [hash_C, hash_A, hash_C]

/-- The body that `scrape` builds for `repeated_batch` on the concrete registry. -/
def body_CAC : String :=
  "d5:filesd20:CCCCCCCCCCCCCCCCCCCCd8:completei0e10:incompletei0e20:AAAAAAAAAAAAAAAAAAAAd8:completei1e10:incompletei2e20:CCCCCCCCCCCCCCCCCCCCd8:completei0e10:incompletei0eee"

/-- The concrete worker while a sweep is marked as running. -/
def busy_worker : worker :=
  { demo_worker with reaper_active := true }

/-! ## Lemmas on the reaper loops -/

theorem reap_loop_fst (pt : Nat) (ct : Int) (peers : peer_list) (n : Nat) :
    (reap_loop pt ct peers n).1 = survivors pt ct peers := by
  induction peers generalizing n with
  | nil => rfl
  | cons e rest ih =>
    obtain ⟨peer_id, p⟩ := e
    by_cases hx : p.last_announced + (pt : Int) < ct
    · simp [reap_loop, survivors, expired, hx]
      simpa [survivors, expired] using ih ((n + 1) % 2 ^ 32)
    · simp [reap_loop, survivors, expired, hx]
      simpa [survivors, expired] using ih n

theorem reap_torrents_fst (pt : Nat) (ct : Int) (tl : torrent_list) (a b : Nat) :
    (reap_torrents pt ct tl a b).1 = tl.map (fun e => (e.1, swept pt ct e.2)) := by
  induction tl generalizing a b with
  | nil => rfl
  | cons e rest ih =>
    obtain ⟨info_hash, tor⟩ := e
    simp [reap_torrents, ih, swept, reap_loop_fst]

theorem reap_peers_torrents (now : Int) (w : worker) :
    (reap_peers now w).1.torrents_list
      = w.torrents_list.map (fun e => (e.1, swept w.peers_timeout now e.2)) := by
  simp [reap_peers, reap_torrents_fst]

theorem mem_survivors (pt : Nat) (now : Int) (peers : peer_list) (x : String × peer) :
    x ∈ survivors pt now peers ↔ x ∈ peers ∧ ¬ x.2.last_announced + (pt : Int) < now := by
  simp [survivors, expired]

theorem swept_disjoint (pt : Nat) (now : Int) (tor : torrent) (h : torrent_disjoint tor) :
    torrent_disjoint (swept pt now tor) := by
  intro s hs l hl
  exact h s ((mem_survivors pt now _ s).1 hs).1 l ((mem_survivors pt now _ l).1 hl).1

/-! ## Lemmas on the scrape loop -/

theorem scrape_step_eq (E : externs) (tl : torrent_list) (out infohash : String) :
    scrape_step E tl out infohash
      = out ++ concat_all ((emitted E tl [infohash]).map (fun e => scrape_entry e.1 e.2)) := by
  cases hf : find tl (E.hex_decode infohash) with
  | none => simp [scrape_step, emitted, concat_all, hf]
  | some tor => simp [scrape_step, emitted, concat_all, scrape_entry, String.append_assoc, hf]

theorem emitted_cons (E : externs) (tl : torrent_list) (infohash : String) (rest : List String) :
    emitted E tl (infohash :: rest) = emitted E tl [infohash] ++ emitted E tl rest := by
  simp only [emitted]
  cases find tl (E.hex_decode infohash) <;> simp

theorem emitted_append (E : externs) (tl : torrent_list) (a b : List String) :
    emitted E tl (a ++ b) = emitted E tl a ++ emitted E tl b := by
  induction a with
  | nil => simp [emitted]
  | cons x rest ih =>
    rw [List.cons_append, emitted_cons, ih, emitted_cons E tl x rest, List.append_assoc]

theorem concat_all_append (a b : List String) :
    concat_all (a ++ b) = concat_all a ++ concat_all b := by
  induction a with
  | nil => simp [concat_all]
  | cons x rest ih => simp [concat_all, ih, String.append_assoc]

theorem scrape_loop_eq (E : externs) (tl : torrent_list) (out : String) (batch : List String) :
    scrape_loop E tl out batch
      = out ++ concat_all ((emitted E tl batch).map (fun e => scrape_entry e.1 e.2)) := by
  induction batch generalizing out with
  | nil => simp [scrape_loop, emitted, concat_all]
  | cons x rest ih =>
    rw [scrape_loop, ih, scrape_step_eq, emitted_cons E tl x rest, List.map_append,
      concat_all_append, String.append_assoc]

theorem emitted_keys (E : externs) (tl : torrent_list) (batch : List String) :
    (emitted E tl batch).map Prod.fst = (batch.map E.hex_decode).filter (registered tl) := by
  induction batch with
  | nil => rfl
  | cons x rest ih =>
    cases hf : find tl (E.hex_decode x) with
    | none =>
      have hr : registered tl (E.hex_decode x) = false := by simp [registered, hf]
      simp [emitted, hf, List.filter_cons, hr, ih]
    | some tor =>
      have hr : registered tl (E.hex_decode x) = true := by simp [registered, hf]
      simp [emitted, hf, List.filter_cons, hr, ih]

theorem emitted_found (E : externs) (tl : torrent_list) (batch : List String) :
    ∀ e ∈ emitted E tl batch, find tl e.1 = some e.2 := by
  induction batch with
  | nil => intro e he; simp [emitted] at he
  | cons x rest ih =>
    intro e he
    simp only [emitted] at he
    cases hf : find tl (E.hex_decode x) with
    | none => rw [hf] at he; exact ih e he
    | some tor =>
      rw [hf] at he
      rcases List.mem_cons.1 he with rfl | h
      · exact hf
      · exact ih e h

/-! ## Lemmas on the status -/

theorem announce_status (E : externs) (now : Int) (input : String) (u : user)
    (params headers : params_type) (ip : String) (client_opts : client_opts_t) (w : worker) :
    (announce E now input u params headers ip client_opts w).2.status = w.status := by
  unfold announce
  dsimp only
  split <;> rfl

theorem work_status (E : externs) (now : Int) (params headers : params_type) (input ip : String)
    (client_opts : client_opts_t) (w : worker) :
    (work E now params headers input ip client_opts w).2.status = w.status := by
  unfold work
  dsimp only
  split_ifs
  any_goals rfl
  split
  · rfl
  · exact announce_status ..

theorem start_reaper_status (now now_del : Int) (w : worker) :
    (start_reaper now now_del w).status = w.status := by
  unfold start_reaper
  split <;> rfl

theorem apply_op_status (E : externs) (w : worker) (o : op) (ho : o.is_reload = false)
    (h : w.status = tracker_status.CLOSING) :
    (apply_op E w o).status = tracker_status.CLOSING := by
  cases o with
  | shutdown => simp [apply_op, shutdown, h]
  | reload_lists => simp [op.is_reload] at ho
  | reload_config conf => simpa [apply_op, reload_config, load_config] using h
  | start_reaper now now_del => simpa [apply_op, start_reaper_status] using h
  | work now params headers input ip client_opts => simpa [apply_op, work_status] using h
  | announce now input u params headers ip client_opts =>
    simpa [apply_op, announce_status] using h
  | scrape infohashes headers client_opts => simpa [apply_op, scrape] using h

/-! ## Lemmas on the counts of the reaper -/

/-- The number of expired peers of a set. -/
theorem length_survivors (pt : Nat) (now : Int) (peers : peer_list) :
    peers.length
      = (survivors pt now peers).length
        + peers.countP (fun e => decide (expired pt now e.2)) := by
  induction peers with
  | nil => rfl
  | cons e rest ih =>
    by_cases hx : expired pt now e.2
    · simp [survivors, List.filter_cons, List.countP_cons, hx] at ih ⊢
      omega
    · simp [survivors, List.filter_cons, List.countP_cons, hx] at ih ⊢
      omega

theorem reap_loop_snd (pt : Nat) (ct : Int) (peers : peer_list) (n : Nat) (hn : n < 2 ^ 32) :
    (reap_loop pt ct peers n).2
      = (n + peers.countP (fun e => decide (expired pt ct e.2))) % 2 ^ 32 := by
  induction peers generalizing n with
  | nil =>
    simp only [reap_loop, List.countP_nil, Nat.add_zero]
    omega
  | cons e rest ih =>
    obtain ⟨peer_id, p⟩ := e
    by_cases hx : p.last_announced + (pt : Int) < ct
    · have hlt : (n + 1) % 2 ^ 32 < 2 ^ 32 := Nat.mod_lt _ (by norm_num)
      simp only [reap_loop, hx, if_true, ih _ hlt, List.countP_cons, expired, decide_True]
      norm_num
      omega
    · simp only [reap_loop, hx, if_false, ih _ hn, List.countP_cons, expired, decide_False]
      simp

/-- The expired leechers of all torrents of the table. -/
theorem total_leechers_swept (pt : Nat) (now : Int) (tl : torrent_list) :
    total_leechers tl
      = total_leechers (tl.map (fun e => (e.1, swept pt now e.2)))
        + (tl.map (fun e => e.2.leechers.countP (fun x => decide (expired pt now x.2)))).sum := by
  induction tl with
  | nil => rfl
  | cons e rest ih =>
    simp only [total_leechers, List.map_cons, List.sum_cons, swept] at ih ⊢
    have h := length_survivors pt now e.2.leechers
    omega

/-- The expired seeders of all torrents of the table. -/
theorem total_seeders_swept (pt : Nat) (now : Int) (tl : torrent_list) :
    total_seeders tl
      = total_seeders (tl.map (fun e => (e.1, swept pt now e.2)))
        + (tl.map (fun e => e.2.seeders.countP (fun x => decide (expired pt now x.2)))).sum := by
  induction tl with
  | nil => rfl
  | cons e rest ih =>
    simp only [total_seeders, List.map_cons, List.sum_cons, swept] at ih ⊢
    have h := length_survivors pt now e.2.seeders
    omega

theorem reap_torrents_snd (pt : Nat) (ct : Int) (tl : torrent_list) (a b : Nat)
    (ha : a < 2 ^ 32) (hb : b < 2 ^ 32) :
    (reap_torrents pt ct tl a b).2.1
      = (a + (tl.map (fun e => e.2.leechers.countP
          (fun x => decide (expired pt ct x.2)))).sum) % 2 ^ 32 ∧
    (reap_torrents pt ct tl a b).2.2
      = (b + (tl.map (fun e => e.2.seeders.countP
          (fun x => decide (expired pt ct x.2)))).sum) % 2 ^ 32 := by
  induction tl generalizing a b with
  | nil =>
    simp only [reap_torrents, List.map_nil, List.sum_nil, Nat.add_zero]
    omega
  | cons e rest ih =>
    obtain ⟨info_hash, tor⟩ := e
    have hl := reap_loop_snd pt ct tor.leechers a ha
    have hs := reap_loop_snd pt ct tor.seeders b hb
    have hl2 : (reap_loop pt ct tor.leechers a).2 < 2 ^ 32 := by
      rw [hl]; exact Nat.mod_lt _ (by norm_num)
    have hs2 : (reap_loop pt ct tor.seeders b).2 < 2 ^ 32 := by
      rw [hs]; exact Nat.mod_lt _ (by norm_num)
    have h := ih _ _ hl2 hs2
    simp only [reap_torrents, List.map_cons, List.sum_cons]
    rw [h.1, h.2, hl, hs]
    constructor <;> simp [Nat.add_assoc]

/-- The counts that `reap_peers` reports are the numbers of removed leechers and
seeders, as `unsigned int` values. -/
theorem reap_peers_counts (now : Int) (w : worker) :
    (reap_peers now w).2.1
      = (total_leechers w.torrents_list
          - total_leechers (reap_peers now w).1.torrents_list) % 2 ^ 32 ∧
    (reap_peers now w).2.2
      = (total_seeders w.torrents_list
          - total_seeders (reap_peers now w).1.torrents_list) % 2 ^ 32 := by
  have hl := total_leechers_swept w.peers_timeout now w.torrents_list
  have hs := total_seeders_swept w.peers_timeout now w.torrents_list
  have h := reap_torrents_snd w.peers_timeout now w.torrents_list 0 0 (by norm_num) (by norm_num)
  rw [reap_peers_torrents]
  constructor
  · have : (reap_peers now w).2.1 = (reap_torrents w.peers_timeout now w.torrents_list 0 0).2.1 :=
      rfl
    rw [this, h.1]
    congr 1
    omega
  · have : (reap_peers now w).2.2 = (reap_torrents w.peers_timeout now w.torrents_list 0 0).2.2 :=
      rfl
    rw [this, h.2]
    congr 1
    omega

/-! ## Lemmas on repeated sweeps -/

theorem find_map_snd {α β : Type} (f : α → β) (m : List (String × α)) (key : String) :
    find (m.map (fun e => (e.1, f e.2))) key = (find m key).map f := by
  induction m with
  | nil => rfl
  | cons e rest ih =>
    obtain ⟨k, v⟩ := e
    by_cases hk : k = key
    · simp [find, hk]
    · simp [find, hk, ih]

theorem survivors_survivors (pt : Nat) (t1 t2 : Int) (h : t1 ≤ t2) (peers : peer_list) :
    survivors pt t2 (survivors pt t1 peers) = survivors pt t2 peers := by
  unfold survivors
  rw [List.filter_filter]
  apply List.filter_congr
  intro x _
  by_cases h2 : expired pt t2 x.2
  · simp [h2]
  · have h1 : ¬ expired pt t1 x.2 := by
      unfold expired at h2 ⊢
      omega
    simp [h1, h2]

theorem swept_swept (pt : Nat) (t1 t2 : Int) (h : t1 ≤ t2) (tor : torrent) :
    swept pt t2 (swept pt t1 tor) = swept pt t2 tor := by
  simp [swept, survivors_survivors pt t1 t2 h]

theorem reap_loop_fresh (pt : Nat) (ct : Int) (peers : peer_list) (n : Nat)
    (h : ∀ x ∈ peers, ¬ expired pt ct x.2) :
    reap_loop pt ct peers n = (peers, n) := by
  induction peers generalizing n with
  | nil => rfl
  | cons e rest ih =>
    obtain ⟨peer_id, p⟩ := e
    have hx : ¬ p.last_announced + (pt : Int) < ct := h (peer_id, p) (List.mem_cons_self _ _)
    have hr := ih n (fun x hm => h x (List.mem_cons_of_mem _ hm))
    simp [reap_loop, hx, hr]

theorem reap_torrents_fresh (pt : Nat) (ct : Int) (tl : torrent_list) (a b : Nat)
    (h : ∀ e ∈ tl, (∀ x ∈ e.2.leechers, ¬ expired pt ct x.2) ∧
      (∀ x ∈ e.2.seeders, ¬ expired pt ct x.2)) :
    reap_torrents pt ct tl a b = (tl, a, b) := by
  induction tl generalizing a b with
  | nil => rfl
  | cons e rest ih =>
    obtain ⟨info_hash, tor⟩ := e
    have he := h (info_hash, tor) (List.mem_cons_self _ _)
    have hr := ih a b (fun x hm => h x (List.mem_cons_of_mem _ hm))
    simp [reap_torrents, reap_loop_fresh pt ct _ _ he.1, reap_loop_fresh pt ct _ _ he.2, hr]

theorem swept_fresh (pt : Nat) (ct : Int) (tl : torrent_list) :
    ∀ e ∈ tl.map (fun e => (e.1, swept pt ct e.2)),
      (∀ x ∈ e.2.leechers, ¬ expired pt ct x.2) ∧ (∀ x ∈ e.2.seeders, ¬ expired pt ct x.2) := by
  intro e he
  obtain ⟨e0, _, rfl⟩ := List.mem_map.1 he
  exact ⟨fun x hx => ((mem_survivors pt ct _ x).1 hx).2,
    fun x hx => ((mem_survivors pt ct _ x).1 hx).2⟩

/-! ## Lemmas on the crowded torrent -/

theorem many_leechers_length : many_leechers.length = 2 ^ 32 := by
  simp [many_leechers]

theorem many_leechers_survivors : survivors 60 1000 many_leechers = [] := by
  unfold survivors
  rw [List.filter_eq_nil_iff]
  intro e he
  unfold many_leechers at he
  obtain ⟨i, _, rfl⟩ := List.mem_map.1 he
  simp [expired, demo_peer]

/-! ## Lemmas on the dispatcher -/

/-- The announce route of `work`: after the checks, with the passkey of a user,
the result is that of `announce` on the target. -/
theorem work_announce_route (E : externs) (now : Int) (params headers : params_type)
    (input ip : String) (client_opts : client_opts_t) (w : worker) (u : user)
    (hlen : 60 ≤ input.length)
    (hkey : E.extract_passkey (E.request_target input) ≠ "")
    (hact : E.parse_action (E.request_target input) = action_t.ANNOUNCE)
    (hmac : params_at params "hmac" = E.generate_hmac input (w.conf.get_str "hmac_key"))
    (hu : find w.users_list (E.extract_passkey (E.request_target input)) = some u) :
    work E now params headers input ip client_opts w
      = announce E now (E.request_target input) u params headers ip client_opts w := by
  have hl : ¬ input.length < 60 := by omega
  simp [work, hl, hkey, hact, hmac, hu]

/-- The scrape route of `work`: after the checks the result is the fixed response
`success`, and the state is as before. -/
theorem work_scrape_route (E : externs) (now : Int) (params headers : params_type)
    (input ip : String) (client_opts : client_opts_t) (w : worker)
    (hlen : 60 ≤ input.length)
    (hkey : E.extract_passkey (E.request_target input) ≠ "")
    (hact : E.parse_action (E.request_target input) = action_t.SCRAPE)
    (hmac : params_at params "hmac" = E.generate_hmac input (w.conf.get_str "hmac_key")) :
    work E now params headers input ip client_opts w
      = (response.http_response "success" client_opts, w) := by
  have hl : ¬ input.length < 60 := by omega
  simp [work, hl, hkey, hact, hmac]

/-- The function `announce` leaves the torrent table as it is. -/
theorem announce_torrents_list (E : externs) (now : Int) (input : String) (u : user)
    (params headers : params_type) (ip : String) (client_opts : client_opts_t) (w : worker) :
    (announce E now input u params headers ip client_opts w).2.torrents_list
      = w.torrents_list := by
  unfold announce
  dsimp only
  split <;> rfl

/-! ## Theorems -/

/-- C1: in a registry where no peer-id is a key of both the seeder set and the
leecher set of one torrent, the registry after `announce`, after `scrape` and after
`reap_peers` (any arguments, any clock value) again has no peer-id in both sets
of one torrent. -/
theorem peers_disjoint_preserved (E : externs) (w : worker)
    (h : peers_disjoint w.torrents_list) :
    (∀ (now : Int) (input : String) (u : user) (params headers : params_type) (ip : String)
        (client_opts : client_opts_t),
        peers_disjoint (announce E now input u params headers ip client_opts w).2.torrents_list) ∧
    (∀ (infohashes : List String) (headers : params_type) (client_opts : client_opts_t),
        peers_disjoint (scrape E infohashes headers client_opts w).2.torrents_list) ∧
    (∀ now : Int, peers_disjoint (reap_peers now w).1.torrents_list) := by
  refine ⟨?_, ?_, ?_⟩
  · intro now input u params headers ip client_opts
    unfold announce
    dsimp only
    split <;> exact h
  · intro infohashes headers client_opts
    exact h
  · intro now
    rw [reap_peers_torrents]
    intro e he
    obtain ⟨e0, he0, rfl⟩ := List.mem_map.1 he
    exact swept_disjoint _ _ _ (h e0 he0)

/-- Witness of C1: the concrete registry has disjoint peer sets, and so has the
registry after a sweep at time 1000. -/
theorem peers_disjoint_preserved_witness :
    peers_disjoint demo_worker.torrents_list ∧
    peers_disjoint (reap_peers 1000 demo_worker).1.torrents_list :=
  ⟨by decide, (peers_disjoint_preserved demo_externs demo_worker (by decide)).2.2 1000⟩

/-- C2, evaluated on the scenario of the claim: on the registered torrent with 0
seeders and 0 leechers the announce with `left=0` from the new peer `P1` answers
`d8:completei0e` and leaves the torrent table as it was, and the following
announce with `left=100` from `P2` answers `d8:completei0e` again: no peer is
registered, the reported seeder count stays 0 and no leecher count is reported. -/
theorem announce_registers_nobody :
    first_announce.1 = response.http_response "d8:completei0e" demo_opts ∧
    first_announce.2.torrents_list = demo_worker.torrents_list ∧
    find first_announce.2.torrents_list hash_C = some empty_torrent ∧
    second_announce.1 = response.http_response "d8:completei0e" demo_opts ∧
    second_announce.2.torrents_list = demo_worker.torrents_list := by
  decide

/-- C3: after `reap_peers` at the time `now` the torrent table has the same
info-hashes in the same places, and for the torrent at each place, for its
leecher set and for its seeder set alike: a peer with
`last_announced + peers_timeout < now` is not in the set after the sweep, every
entry of the set after the sweep was in it before with the same peer data, and
an entry with `last_announced + peers_timeout >= now` is still in the same set. -/
theorem reap_peers_postcondition (w : worker) (now : Int) :
    (reap_peers now w).1.torrents_list.map Prod.fst = w.torrents_list.map Prod.fst ∧
    ∀ (i : Nat) (before after : String × torrent),
      w.torrents_list[i]? = some before →
      (reap_peers now w).1.torrents_list[i]? = some after →
      after.1 = before.1 ∧
      (∀ x : String × peer,
        (x.2.last_announced + (w.peers_timeout : Int) < now → x ∉ after.2.leechers) ∧
        (x ∈ after.2.leechers → x ∈ before.2.leechers) ∧
        (x ∈ before.2.leechers → x.2.last_announced + (w.peers_timeout : Int) ≥ now →
          x ∈ after.2.leechers)) ∧
      (∀ x : String × peer,
        (x.2.last_announced + (w.peers_timeout : Int) < now → x ∉ after.2.seeders) ∧
        (x ∈ after.2.seeders → x ∈ before.2.seeders) ∧
        (x ∈ before.2.seeders → x.2.last_announced + (w.peers_timeout : Int) ≥ now →
          x ∈ after.2.seeders)) := by
  rw [reap_peers_torrents]
  refine ⟨by simp [Function.comp_def], ?_⟩
  intro i before after hb ha
  rw [List.getElem?_map, hb] at ha
  simp only [Option.map_some', Option.some.injEq] at ha
  subst ha
  refine ⟨rfl, ?_, ?_⟩
  · intro x
    simp only [swept, mem_survivors]
    refine ⟨fun hx hmem => hmem.2 hx, fun hmem => hmem.1, fun hmem hge => ⟨hmem, by omega⟩⟩
  · intro x
    simp only [swept, mem_survivors]
    refine ⟨fun hx hmem => hmem.2 hx, fun hmem => hmem.1, fun hmem hge => ⟨hmem, by omega⟩⟩

/-- Witness of C3: the sweep at time 1000 with a timeout of 60 on the concrete
registry removes the leecher `L2` (last heard of at 100) and keeps the leecher
`L1` (last heard of at 990). -/
theorem reap_peers_postcondition_witness :
    ("L2", demo_peer 100) ∉ (swept 60 1000 demo_torrent).leechers ∧
    ("L1", demo_peer 990) ∈ (swept 60 1000 demo_torrent).leechers :=
  have h := (reap_peers_postcondition demo_worker 1000).2 0 (hash_A, demo_torrent)
    (hash_A, swept 60 1000 demo_torrent) (by decide) (by decide)
  ⟨(h.2.1 ("L2", demo_peer 100)).1 (by decide),
    (h.2.1 ("L1", demo_peer 990)).2.2 (by decide) (by decide)⟩

/-- C4: `scrape` always answers with `http_response`, never with a failure.  The
entries of its body are, in the order of the batch, those of the decoded
info-hashes of the batch that are keys of the torrent table, each with the
torrent found under the key: an info-hash of the batch has an entry if and only
if it is registered.  For the batch `[A, B]` with `A` registered and `B` not, the
body holds the entry of `A` only. -/
theorem scrape_batch_consistency (E : externs) (w : worker) (headers : params_type)
    (client_opts : client_opts_t) :
    (∀ batch : List String, ∃ entries : List (String × torrent),
      (scrape E batch headers client_opts w).1
        = response.http_response
            ("d5:filesd" ++ concat_all (entries.map (fun e => scrape_entry e.1 e.2)) ++ "ee")
            client_opts ∧
      entries.map Prod.fst = (batch.map E.hex_decode).filter (registered w.torrents_list) ∧
      (∀ e ∈ entries, find w.torrents_list e.1 = some e.2) ∧
      (∀ infohash ∈ batch, E.hex_decode infohash ∈ entries.map Prod.fst ↔
        registered w.torrents_list (E.hex_decode infohash) = true)) ∧
    (∀ (A B : String) (tor : torrent),
      find w.torrents_list (E.hex_decode A) = some tor →
      find w.torrents_list (E.hex_decode B) = none →
      (scrape E [A, B] headers client_opts w).1
        = response.http_response ("d5:filesd" ++ scrape_entry (E.hex_decode A) tor ++ "ee")
            client_opts) := by
  constructor
  · intro batch
    refine ⟨emitted E w.torrents_list batch, ?_, emitted_keys E _ batch, emitted_found E _ batch, ?_⟩
    · simp only [scrape, scrape_loop_eq]
    · intro infohash hmem
      rw [emitted_keys, List.mem_filter]
      constructor
      · exact fun h => h.2
      · exact fun h => ⟨List.mem_map_of_mem _ hmem, h⟩
  · intro A B tor hA hB
    simp only [scrape, scrape_loop_eq, emitted, hA, hB, List.map_cons, List.map_nil, concat_all,
      String.append_empty]

/-- Witness of C4: the batch `[hash_A, hash_B]` on the concrete registry, where
`hash_A` is registered and `hash_B` is not. -/
theorem scrape_batch_consistency_witness :
    (scrape demo_externs [hash_A, hash_B] [] demo_opts demo_worker).1
      = response.http_response
          ("d5:filesd" ++ scrape_entry (demo_externs.hex_decode hash_A) demo_torrent ++ "ee")
          demo_opts :=
  (scrape_batch_consistency demo_externs demo_worker [] demo_opts).2 hash_A hash_B demo_torrent
    (by decide) (by decide)

/-- C5, evaluated on the batch `[hash_A]` with `hash_A` registered: the body that
`scrape` passes to `http_response` is `body_A`, which opens three dictionaries
and closes two; it does not decode as bencode, so it has not the shape of a
scrape body, while the same text with one more closing `e` has that shape. -/
theorem scrape_body_unclosed :
    (scrape demo_externs [hash_A] [] demo_opts demo_worker).1
      = response.http_response body_A demo_opts ∧
    (bdecode body_A).isNone = true ∧
    scrape_body_wellformed body_A = false ∧
    scrape_body_wellformed (body_A ++ "e") = true := by
  decide

/-- Counterexample to C6: the torrent under `hash_A` has 7 completed downloads,
and the body that `scrape` builds for the batch `[hash_A]` is `body_A`, in which
the word `downloaded` does not occur: the entry has no third field. -/
theorem scrape_entry_lacks_downloaded :
    find demo_worker.torrents_list (demo_externs.hex_decode hash_A) = some demo_torrent ∧
    demo_torrent.completed = 7 ∧
    response_body (scrape demo_externs [hash_A] [] demo_opts demo_worker).1 = some body_A ∧
    ¬ ("downloaded".data <:+: body_A.data) := by
  decide

/-- C6 as amended: for a registered info-hash anywhere in the batch, the body is
`d5:filesd`, what the loop appends for the part of the batch before it, the entry
`<length>:<hash>d8:completei<S>e10:incompletei<L>e` with `S` the number of seeders
and `L` the number of leechers of its torrent, what the loop appends for the part
of the batch after it, and `ee`; the entry has the two fields `complete` and
`incomplete` and no field `downloaded`. -/
theorem scrape_entry_contents (E : externs) (w : worker) (headers : params_type)
    (client_opts : client_opts_t) (pre post : List String) (infohash : String) (tor : torrent)
    (h : find w.torrents_list (E.hex_decode infohash) = some tor) :
    (scrape E (pre ++ infohash :: post) headers client_opts w).1
      = response.http_response
          ("d5:filesd" ++ scrape_loop E w.torrents_list "" pre
            ++ (inttostr (E.hex_decode infohash).length ++ ":" ++ E.hex_decode infohash
              ++ "d8:completei" ++ inttostr tor.seeders.length
              ++ "e10:incompletei" ++ inttostr tor.leechers.length ++ "e")
            ++ scrape_loop E w.torrents_list "" post ++ "ee")
          client_opts := by
  simp only [scrape, scrape_loop_eq, emitted_append, emitted_cons E w.torrents_list infohash post,
    List.map_append, concat_all_append, String.append_assoc, String.empty_append]
  simp [emitted, h, concat_all, scrape_entry, String.append_assoc]

/-- Witness of C6 as amended: the batch `[hash_A, hash_B]` on the concrete
registry, with the entry of `hash_A` written out. -/
theorem scrape_entry_contents_witness :
    (scrape demo_externs ([] ++ hash_A :: [hash_B]) [] demo_opts demo_worker).1
      = response.http_response
          ("d5:filesd" ++ scrape_loop demo_externs demo_worker.torrents_list "" []
            ++ (inttostr (demo_externs.hex_decode hash_A).length ++ ":"
              ++ demo_externs.hex_decode hash_A
              ++ "d8:completei" ++ inttostr demo_torrent.seeders.length
              ++ "e10:incompletei" ++ inttostr demo_torrent.leechers.length ++ "e")
            ++ scrape_loop demo_externs demo_worker.torrents_list "" [hash_B] ++ "ee")
          demo_opts :=
  scrape_entry_contents demo_externs demo_worker [] demo_opts [] [hash_B] hash_A demo_torrent
    (by decide)

/-- C7: for an input shorter than 60 bytes `work` returns the error
`GET string too short`, the counter `http_error` is one more than before, the
other counters are as before, the torrent table and the user table are as
before, and the response and the counters are the same whatever the two tables
hold: they are not read. -/
theorem work_short_request (E : externs) (now : Int) (params headers : params_type)
    (input ip : String) (client_opts : client_opts_t) (w : worker) (h : input.length < 60) :
    (work E now params headers input ip client_opts w).1
      = response.error "GET string too short" client_opts ∧
    (work E now params headers input ip client_opts w).2.stats.http_error
      = w.stats.http_error + 1 ∧
    (work E now params headers input ip client_opts w).2.stats.auth_error_secret
      = w.stats.auth_error_secret ∧
    (work E now params headers input ip client_opts w).2.stats.auth_error_announce_key
      = w.stats.auth_error_announce_key ∧
    (work E now params headers input ip client_opts w).2.torrents_list = w.torrents_list ∧
    (work E now params headers input ip client_opts w).2.users_list = w.users_list ∧
    (∀ (tl : torrent_list) (ul : user_list),
      (work E now params headers input ip client_opts
          { w with torrents_list := tl, users_list := ul }).1
        = (work E now params headers input ip client_opts w).1 ∧
      (work E now params headers input ip client_opts
          { w with torrents_list := tl, users_list := ul }).2.stats
        = (work E now params headers input ip client_opts w).2.stats) := by
  simp [work, h]

/-- Witness of C7: the request `short_input` of 40 bytes. -/
theorem work_short_request_witness :
    short_input.length = 40 ∧
    (work demo_externs 1000 [] [] short_input "10.0.0.9" demo_opts demo_worker).1
      = response.error "GET string too short" demo_opts ∧
    (work demo_externs 1000 [] [] short_input "10.0.0.9" demo_opts demo_worker).2.stats.http_error
      = demo_worker.stats.http_error + 1 :=
  have h := work_short_request demo_externs 1000 [] [] short_input "10.0.0.9" demo_opts
    demo_worker (by decide)
  ⟨by decide, h.1, h.2.1⟩

/-- C8: for a worker in status `OPEN` the first `shutdown` returns `false` and
leaves the status `CLOSING`; the second `shutdown` right after returns `true` and
leaves the status `CLOSING`. -/
theorem double_shutdown (w : worker) (h : w.status = tracker_status.OPEN) :
    (shutdown w).1 = false ∧
    (shutdown w).2.status = tracker_status.CLOSING ∧
    (shutdown (shutdown w).2).1 = true ∧
    (shutdown (shutdown w).2).2.status = tracker_status.CLOSING := by
  simp [shutdown, h]

/-- Witness of C8: the concrete worker, which is in status `OPEN`. -/
theorem double_shutdown_witness :
    demo_worker.status = tracker_status.OPEN ∧
    (shutdown demo_worker).1 = false ∧
    (shutdown demo_worker).2.status = tracker_status.CLOSING ∧
    (shutdown (shutdown demo_worker).2).1 = true ∧
    (shutdown (shutdown demo_worker).2).2.status = tracker_status.CLOSING :=
  ⟨by decide, double_shutdown demo_worker (by decide)⟩

/-- Counterexample to C9: the worker `closing_worker` is in status `CLOSING`, and
after `reload_lists` its status is `OPEN`. -/
theorem reload_lists_reopens :
    closing_worker.status = tracker_status.CLOSING ∧
    (apply_op demo_externs closing_worker op.reload_lists).status = tracker_status.OPEN := by
  decide

/-- C9 as amended: for a worker in status `CLOSING`, after every public operation
other than `reload_lists` the status is `CLOSING`, hence not `OPEN`, and so it is
after every sequence of public operations without `reload_lists`; after
`reload_lists` the status is `OPEN`. -/
theorem closing_stays_closing (E : externs) (w : worker)
    (h : w.status = tracker_status.CLOSING) :
    (∀ o : op, o.is_reload = false →
      (apply_op E w o).status = tracker_status.CLOSING ∧
      (apply_op E w o).status ≠ tracker_status.OPEN) ∧
    (∀ ops : List op, (∀ o ∈ ops, o.is_reload = false) →
      (run_ops E w ops).status = tracker_status.CLOSING ∧
      (run_ops E w ops).status ≠ tracker_status.OPEN) ∧
    (apply_op E w op.reload_lists).status = tracker_status.OPEN := by
  refine ⟨?_, ?_, rfl⟩
  · intro o ho
    have hs := apply_op_status E w o ho h
    exact ⟨hs, by rw [hs]; decide⟩
  · intro ops hops
    have hs : (run_ops E w ops).status = tracker_status.CLOSING := by
      unfold run_ops
      induction ops generalizing w with
      | nil => exact h
      | cons o rest ih =>
        rw [List.foldl_cons]
        exact ih (apply_op E w o)
          (apply_op_status E w o (hops o (List.mem_cons_self _ _)) h)
          (fun o2 ho2 => hops o2 (List.mem_cons_of_mem _ ho2))
    exact ⟨hs, by rw [hs]; decide⟩

/-- Witness of C9 as amended: on `closing_worker`, a second `shutdown`, a reaper
run and a short request leave the status `CLOSING`. -/
theorem closing_stays_closing_witness :
    closing_worker.status = tracker_status.CLOSING ∧
    (run_ops demo_externs closing_worker
      [op.shutdown, op.start_reaper 1000 1000,
        op.work 1001 [] [] short_input "10.0.0.9" demo_opts]).status
      = tracker_status.CLOSING :=
  ⟨by decide,
    ((closing_stays_closing demo_externs closing_worker (by decide)).2.1
      [op.shutdown, op.start_reaper 1000 1000,
        op.work 1001 [] [] short_input "10.0.0.9" demo_opts]
      (by simp [op.is_reload])).1⟩

/-- Counterexample to C10: the request with an empty passkey gets the error
`Malformed announce` and the announce on an unregistered info-hash gets the
error `Unregistered torrent`, both with all counters as before; the request that
is too short and the request with an invalid action both add one to the same
counter `http_error`. -/
theorem error_paths_without_counter :
    ((work demo_externs 1000 [("hmac", "k")] [] nopasskey_input "10.0.0.9" demo_opts
        demo_worker).1 = response.error "Malformed announce" demo_opts ∧
      (work demo_externs 1000 [("hmac", "k")] [] nopasskey_input "10.0.0.9" demo_opts
        demo_worker).2.stats = demo_worker.stats) ∧
    ((work demo_externs 1000 unregistered_params [] unregistered_input "10.0.0.9" demo_opts
        demo_worker).1 = response.error "Unregistered torrent" demo_opts ∧
      (work demo_externs 1000 unregistered_params [] unregistered_input "10.0.0.9" demo_opts
        demo_worker).2.stats = demo_worker.stats) ∧
    ((work demo_externs 1000 [("hmac", "k")] [] short_input "10.0.0.9" demo_opts
        demo_worker).1 = response.error "GET string too short" demo_opts ∧
      (work demo_externs 1000 [("hmac", "k")] [] short_input "10.0.0.9" demo_opts
        demo_worker).2.stats
        = { http_error := 1, auth_error_secret := 0, auth_error_announce_key := 0 }) ∧
    ((work demo_externs 1000 [("hmac", "k")] [] badaction_input "10.0.0.9" demo_opts
        demo_worker).1 = response.error "Invalid action" demo_opts ∧
      (work demo_externs 1000 [("hmac", "k")] [] badaction_input "10.0.0.9" demo_opts
        demo_worker).2.stats
        = { http_error := 1, auth_error_secret := 0, auth_error_announce_key := 0 }) := by
  decide

/-- C10 as amended: when `work` returns the error `GET string too short` or the
error `Invalid action`, the counter `http_error` (the same for both) is one more
than before and the other counters are as before; when it returns
`Authentication failure`, exactly `auth_error_secret` is one more; when it
returns `Passkey not found`, exactly `auth_error_announce_key` is one more. -/
theorem error_counters (E : externs) (now : Int) (params headers : params_type)
    (input ip : String) (client_opts : client_opts_t) (w : worker) :
    ((work E now params headers input ip client_opts w).1
          = response.error "GET string too short" client_opts ∨
        (work E now params headers input ip client_opts w).1
          = response.error "Invalid action" client_opts →
      (work E now params headers input ip client_opts w).2.stats
        = { w.stats with http_error := w.stats.http_error + 1 }) ∧
    ((work E now params headers input ip client_opts w).1
          = response.error "Authentication failure" client_opts →
      (work E now params headers input ip client_opts w).2.stats
        = { w.stats with auth_error_secret := w.stats.auth_error_secret + 1 }) ∧
    ((work E now params headers input ip client_opts w).1
          = response.error "Passkey not found" client_opts →
      (work E now params headers input ip client_opts w).2.stats
        = { w.stats with auth_error_announce_key := w.stats.auth_error_announce_key + 1 }) := by
  unfold work
  dsimp only
  split_ifs
  any_goals simp
  split
  · simp
  · unfold announce
    dsimp only
    split <;> simp

/-- Witness of C10 as amended: the request `badaction_input` is answered with
`Invalid action`, and `http_error` goes from 0 to 1. -/
theorem error_counters_witness :
    (work demo_externs 1000 [("hmac", "k")] [] badaction_input "10.0.0.9" demo_opts
        demo_worker).2.stats
      = { demo_worker.stats with http_error := demo_worker.stats.http_error + 1 } :=
  (error_counters demo_externs 1000 [("hmac", "k")] [] badaction_input "10.0.0.9" demo_opts
    demo_worker).1 (Or.inr (by decide))

/-- C11: for an input of at least 60 bytes with a non-empty passkey and the action
`ANNOUNCE` or `SCRAPE`, whose parameter `hmac` differs from the code computed over
the raw input with the configured key, `work` returns the error
`Authentication failure`, `auth_error_secret` is one more than before,
`http_error` and `auth_error_announce_key` are as before, and the user table is
neither changed nor read: response and counters are the same whatever it holds. -/
theorem work_authentication_failure (E : externs) (now : Int) (params headers : params_type)
    (input ip : String) (client_opts : client_opts_t) (w : worker)
    (hlen : 60 ≤ input.length)
    (hkey : E.extract_passkey (E.request_target input) ≠ "")
    (hact : E.parse_action (E.request_target input) = action_t.ANNOUNCE ∨
      E.parse_action (E.request_target input) = action_t.SCRAPE)
    (hmac : params_at params "hmac" ≠ E.generate_hmac input (w.conf.get_str "hmac_key")) :
    (work E now params headers input ip client_opts w).1
      = response.error "Authentication failure" client_opts ∧
    (work E now params headers input ip client_opts w).2.stats.auth_error_secret
      = w.stats.auth_error_secret + 1 ∧
    (work E now params headers input ip client_opts w).2.stats.http_error
      = w.stats.http_error ∧
    (work E now params headers input ip client_opts w).2.stats.auth_error_announce_key
      = w.stats.auth_error_announce_key ∧
    (work E now params headers input ip client_opts w).2.users_list = w.users_list ∧
    (∀ ul : user_list,
      (work E now params headers input ip client_opts { w with users_list := ul }).1
        = (work E now params headers input ip client_opts w).1 ∧
      (work E now params headers input ip client_opts { w with users_list := ul }).2.stats
        = (work E now params headers input ip client_opts w).2.stats) := by
  have hl : ¬ input.length < 60 := by omega
  have ha : E.parse_action (E.request_target input) ≠ action_t.INVALID := by
    rcases hact with h | h <;> rw [h] <;> decide
  simp [work, hl, hkey, ha, hmac]

/-- Witness of C11: the announce request `unregistered_input` with the code `bad`
where the configured key gives `k`. -/
theorem work_authentication_failure_witness :
    (work demo_externs 1000 [("hmac", "bad")] [] unregistered_input "10.0.0.9" demo_opts
        demo_worker).1 = response.error "Authentication failure" demo_opts ∧
    (work demo_externs 1000 [("hmac", "bad")] [] unregistered_input "10.0.0.9" demo_opts
        demo_worker).2.stats.auth_error_secret = demo_worker.stats.auth_error_secret + 1 :=
  have h := work_authentication_failure demo_externs 1000 [("hmac", "bad")] [] unregistered_input
    "10.0.0.9" demo_opts demo_worker (by decide) (by decide) (Or.inl (by decide)) (by decide)
  ⟨h.1, h.2.1⟩

/-- C12, evaluated on a scrape request and on an announce request that pass the
length, passkey, action and HMAC checks with the passkey `zz`, which is not a
key of the user table: the announce request gets the error `Passkey not found`
and `auth_error_announce_key` goes from 0 to 1; the scrape request gets
`http_response("success")` and all counters stay as they were. -/
theorem scrape_route_skips_passkey :
    find demo_worker.users_list (demo_externs.extract_passkey
      (demo_externs.request_target scrape_unknown_input)) = none ∧
    demo_externs.parse_action (demo_externs.request_target scrape_unknown_input)
      = action_t.SCRAPE ∧
    (work demo_externs 1000 plain_params [] scrape_unknown_input "10.0.0.9" demo_opts
        demo_worker).1 = response.http_response "success" demo_opts ∧
    (work demo_externs 1000 plain_params [] scrape_unknown_input "10.0.0.9" demo_opts
        demo_worker).2.stats = demo_worker.stats ∧
    (work demo_externs 1000 plain_params [] announce_unknown_input "10.0.0.9" demo_opts
        demo_worker).1 = response.error "Passkey not found" demo_opts ∧
    (work demo_externs 1000 plain_params [] announce_unknown_input "10.0.0.9" demo_opts
        demo_worker).2.stats
      = { http_error := 0, auth_error_secret := 0, auth_error_announce_key := 1 } := by
  decide

/-- C13, evaluated on a scrape request that passes all checks, with the passkey
of the registered user and the info-hashes `hash_A`, `hash_B`: `work` returns
`http_response("success")`, while `scrape` on these info-hashes returns the body
`body_A`; the two responses differ. -/
theorem scrape_route_not_dispatched :
    find demo_worker.users_list (demo_externs.extract_passkey
      (demo_externs.request_target scrape_known_input)) = some demo_user ∧
    demo_externs.parse_action (demo_externs.request_target scrape_known_input)
      = action_t.SCRAPE ∧
    (work demo_externs 1000 plain_params [] scrape_known_input "10.0.0.9" demo_opts
        demo_worker).1 = response.http_response "success" demo_opts ∧
    (scrape demo_externs [hash_A, hash_B] [] demo_opts demo_worker).1
      = response.http_response body_A demo_opts ∧
    (work demo_externs 1000 plain_params [] scrape_known_input "10.0.0.9" demo_opts
        demo_worker).1
      ≠ (scrape demo_externs [hash_A, hash_B] [] demo_opts demo_worker).1 := by
  decide

/-- C14: after `reap_peers` the torrent table has the same info-hashes in the
same places, an info-hash is registered after the sweep exactly if it was
before, each torrent keeps its completed counter, its freeleech flag and its
last-activity time, and the user table, the deletion reasons, the status and the
counters of the worker are as before: only seeder and leecher sets change. -/
theorem reap_keeps_torrents (w : worker) (now : Int) :
    (reap_peers now w).1.torrents_list.map Prod.fst = w.torrents_list.map Prod.fst ∧
    (∀ key : String,
      registered (reap_peers now w).1.torrents_list key = registered w.torrents_list key) ∧
    (reap_peers now w).1.torrents_list.map
        (fun e => (e.1, e.2.completed, e.2.free_torrent, e.2.last_flushed))
      = w.torrents_list.map (fun e => (e.1, e.2.completed, e.2.free_torrent, e.2.last_flushed)) ∧
    (reap_peers now w).1.users_list = w.users_list ∧
    (reap_peers now w).1.del_reasons = w.del_reasons ∧
    (reap_peers now w).1.status = w.status ∧
    (reap_peers now w).1.stats = w.stats := by
  rw [reap_peers_torrents]
  refine ⟨by simp [Function.comp_def], ?_, by simp [Function.comp_def, swept], rfl, rfl, rfl, rfl⟩
  intro key
  simp only [registered, find_map_snd]
  cases find w.torrents_list key <;> rfl

/-- Witness of C14: the sweep at time 2000 removes every peer of the concrete
registry, and both of its torrents, the one that lost all its peers and the one
that never had any, are still registered. -/
theorem reap_keeps_torrents_witness :
    total_leechers (reap_peers 2000 demo_worker).1.torrents_list = 0 ∧
    total_seeders (reap_peers 2000 demo_worker).1.torrents_list = 0 ∧
    registered (reap_peers 2000 demo_worker).1.torrents_list hash_A = true ∧
    registered (reap_peers 2000 demo_worker).1.torrents_list hash_C = true :=
  have h := (reap_keeps_torrents demo_worker 2000).2.1
  ⟨by decide, by decide, by rw [h hash_A]; decide, by rw [h hash_C]; decide⟩

/-- C15, evaluated on the seeder `S1` of the torrent `hash_A`, last heard of at
time 980: after the announce at time 1000 and the same announce again at time
1001 the worker clock is 1001, the torrent table is as it was, and the
last-announced time of `S1` is still 980; both responses report the seeder
count 1. -/
theorem reannounce_keeps_timestamp :
    reannounce_first.1 = response.http_response "d8:completei1e" demo_opts ∧
    reannounce_second.1 = response.http_response "d8:completei1e" demo_opts ∧
    reannounce_second.2.cur_time = 1001 ∧
    reannounce_second.2.torrents_list = demo_worker.torrents_list ∧
    (find reannounce_second.2.torrents_list hash_A).map
        (fun tor => (find tor.seeders "S1").map (fun p => p.last_announced))
      = some (some 980) := by
  decide

/-- C16, evaluated on an announce on the registered torrent `hash_A` (1 seeder,
2 leechers): the body is `d8:completei1e`, a dictionary that is opened and not
closed, so it does not decode as bencode (with one more `e` it would); it has
the key `complete` and none of `interval`, `min interval`, `incomplete`, `peers`. -/
theorem announce_body_shape :
    (announce demo_externs 1000 "/pk/announce" demo_user reannounce_params [] "10.0.0.1"
        demo_opts demo_worker).1 = response.http_response "d8:completei1e" demo_opts ∧
    (bdecode "d8:completei1e").isNone = true ∧
    (bdecode "d8:completei1ee").isSome = true ∧
    ¬ ("interval".data <:+: "d8:completei1e".data) ∧
    ¬ ("incomplete".data <:+: "d8:completei1e".data) ∧
    ¬ ("peers".data <:+: "d8:completei1e".data) := by
  decide

/-- C17: when `reaper_active` is set, `start_reaper` leaves the whole state as it
is, in particular the torrent table, the deletion reasons and the flag; when it
is not set, `start_reaper` runs `do_start_reaper`, whose states are: the flag
set, then `reap_peers` done, then `reap_del_reasons` done, then the flag cleared;
the flag is set in every state but the last, and cleared in the last, which is
the result of `do_start_reaper`. -/
theorem reaper_guard (now now_del : Int) (w : worker) :
    (w.reaper_active = true →
      start_reaper now now_del w = w ∧
      (start_reaper now now_del w).torrents_list = w.torrents_list ∧
      (start_reaper now now_del w).del_reasons = w.del_reasons ∧
      (start_reaper now now_del w).reaper_active = w.reaper_active) ∧
    (w.reaper_active = false →
      start_reaper now now_del w = do_start_reaper now now_del w) ∧
    do_start_reaper_trace now now_del w
      = [{ w with reaper_active := true },
          (reap_peers now { w with reaper_active := true }).1,
          reap_del_reasons now_del (reap_peers now { w with reaper_active := true }).1,
          do_start_reaper now now_del w] ∧
    (∀ s ∈ (do_start_reaper_trace now now_del w).dropLast, s.reaper_active = true) ∧
    (do_start_reaper now now_del w).reaper_active = false := by
  refine ⟨?_, ?_, rfl, ?_, rfl⟩
  · intro h
    simp [start_reaper, h]
  · intro h
    simp [start_reaper, h]
  · intro s hs
    simp only [do_start_reaper_trace, List.dropLast, List.mem_cons, List.mem_singleton] at hs
    rcases hs with rfl | rfl | rfl | hs
    · rfl
    · rfl
    · rfl
    · simp at hs

/-- Witness of C17: on `busy_worker`, whose flag is set, `start_reaper` changes
nothing; on `demo_worker`, whose flag is not set, it runs the sweep. -/
theorem reaper_guard_witness :
    start_reaper 1000 1000 busy_worker = busy_worker ∧
    start_reaper 1000 1000 demo_worker = do_start_reaper 1000 1000 demo_worker :=
  ⟨((reaper_guard 1000 1000 busy_worker).1 (by decide)).1,
    (reaper_guard 1000 1000 demo_worker).2.1 (by decide)⟩

/-- Counterexample to C18: the torrent of `crowded_worker` has 2^32 leechers, all
expired at time 1000; the sweep removes all of them, and the leecher count it
reports is 0. -/
theorem reap_count_wraps :
    total_leechers crowded_worker.torrents_list = 2 ^ 32 ∧
    total_leechers (reap_peers 1000 crowded_worker).1.torrents_list = 0 ∧
    (reap_peers 1000 crowded_worker).2.1 = 0 := by
  have hb : total_leechers crowded_worker.torrents_list = 2 ^ 32 := by
    simp [total_leechers, crowded_worker, many_leechers_length]
  have ha : total_leechers (reap_peers 1000 crowded_worker).1.torrents_list = 0 := by
    rw [reap_peers_torrents]
    simp [total_leechers, crowded_worker, demo_worker, swept, many_leechers_survivors]
  refine ⟨hb, ha, ?_⟩
  rw [(reap_peers_counts 1000 crowded_worker).1, hb, ha]
  norm_num

/-- C18 as amended: the counts that `reap_peers` reports are the numbers of
leechers and of seeders removed over all torrents (total before minus total
after), reduced modulo 2^32 as the `unsigned int` counters are; they are these
numbers themselves when fewer than 2^32 peers of the kind are removed, and both
are 0 when no peer is expired. -/
theorem reap_counts_unsigned (w : worker) (now : Int) :
    (reap_peers now w).2.1
      = (total_leechers w.torrents_list
          - total_leechers (reap_peers now w).1.torrents_list) % 2 ^ 32 ∧
    (reap_peers now w).2.2
      = (total_seeders w.torrents_list
          - total_seeders (reap_peers now w).1.torrents_list) % 2 ^ 32 ∧
    (total_leechers w.torrents_list - total_leechers (reap_peers now w).1.torrents_list < 2 ^ 32 →
      (reap_peers now w).2.1
        = total_leechers w.torrents_list - total_leechers (reap_peers now w).1.torrents_list) ∧
    (total_seeders w.torrents_list - total_seeders (reap_peers now w).1.torrents_list < 2 ^ 32 →
      (reap_peers now w).2.2
        = total_seeders w.torrents_list - total_seeders (reap_peers now w).1.torrents_list) ∧
    ((∀ e ∈ w.torrents_list,
        (∀ x ∈ e.2.leechers, now ≤ x.2.last_announced + (w.peers_timeout : Int)) ∧
        (∀ x ∈ e.2.seeders, now ≤ x.2.last_announced + (w.peers_timeout : Int))) →
      (reap_peers now w).2 = (0, 0) ∧
      (reap_peers now w).1.torrents_list = w.torrents_list) := by
  have h := reap_peers_counts now w
  refine ⟨h.1, h.2, ?_, ?_, ?_⟩
  · intro hlt
    rw [h.1, Nat.mod_eq_of_lt hlt]
  · intro hlt
    rw [h.2, Nat.mod_eq_of_lt hlt]
  · intro hfresh
    have hf : reap_torrents w.peers_timeout now w.torrents_list 0 0 = (w.torrents_list, 0, 0) := by
      apply reap_torrents_fresh
      intro e he
      constructor
      · intro x hx
        have := (hfresh e he).1 x hx
        unfold expired
        omega
      · intro x hx
        have := (hfresh e he).2 x hx
        unfold expired
        omega
    simp [reap_peers, hf]

/-- Witness of C18 as amended: the sweep at time 1000 on the concrete registry
removes one leecher and no seeder, and reports 1 and 0. -/
theorem reap_counts_unsigned_witness :
    (reap_peers 1000 demo_worker).2.1
      = total_leechers demo_worker.torrents_list
        - total_leechers (reap_peers 1000 demo_worker).1.torrents_list ∧
    (reap_peers 1000 demo_worker).2 = (1, 0) :=
  ⟨(reap_counts_unsigned demo_worker 1000).2.2.1 (by decide), by decide⟩

/-- C19: for times `t1 <= t2`, the sweep at `t1` followed by the sweep at `t2`
leaves the same state as the sweep at `t2` alone; and a sweep at the time of the
sweep before it leaves the state as it is and reports 0 leechers and 0 seeders. -/
theorem sweeps_compose (w : worker) (t1 t2 : Int) (h : t1 ≤ t2) :
    (reap_peers t2 (reap_peers t1 w).1).1 = (reap_peers t2 w).1 ∧
    reap_peers t2 (reap_peers t2 w).1 = ((reap_peers t2 w).1, 0, 0) := by
  constructor
  · have ht : (reap_torrents w.peers_timeout t2
          (reap_torrents w.peers_timeout t1 w.torrents_list 0 0).1 0 0).1
        = (reap_torrents w.peers_timeout t2 w.torrents_list 0 0).1 := by
      simp [reap_torrents_fst, Function.comp_def, swept_swept _ t1 t2 h]
    simp [reap_peers, ht]
  · have hf : reap_torrents w.peers_timeout t2
          (reap_torrents w.peers_timeout t2 w.torrents_list 0 0).1 0 0
        = ((reap_torrents w.peers_timeout t2 w.torrents_list 0 0).1, 0, 0) := by
      rw [reap_torrents_fst]
      exact reap_torrents_fresh _ _ _ 0 0 (swept_fresh _ _ _)
    simp [reap_peers, hf]

/-- Witness of C19: on the concrete registry, the sweeps at 1000 and then at 2000
leave the torrent table of the sweep at 2000 alone. -/
theorem sweeps_compose_witness :
    (reap_peers 2000 (reap_peers 1000 demo_worker).1).1.torrents_list
      = (reap_peers 2000 demo_worker).1.torrents_list ∧
    (reap_peers 1000 (reap_peers 1000 demo_worker).1).2 = (0, 0) :=
  have h := sweeps_compose demo_worker 1000 2000 (by decide)
  have h2 := sweeps_compose demo_worker 1000 1000 (by decide)
  ⟨congrArg worker.torrents_list h.1, congrArg Prod.snd h2.2⟩

/-- C20: the entries of the body of `scrape` are those of the decoded info-hashes
of the batch that are registered, in the order of the batch: their keys are a
sublist of the decoded batch, a registered key occurs among them as often as in
the decoded batch, and when a registered key occurs twice or more in the batch,
the keys of the entries are not pairwise different. -/
theorem scrape_order_multiplicity (E : externs) (w : worker) (headers : params_type)
    (client_opts : client_opts_t) (batch : List String) :
    ∃ entries : List (String × torrent),
      (scrape E batch headers client_opts w).1
        = response.http_response
            ("d5:filesd" ++ concat_all (entries.map (fun e => scrape_entry e.1 e.2)) ++ "ee")
            client_opts ∧
      entries.map Prod.fst = (batch.map E.hex_decode).filter (registered w.torrents_list) ∧
      List.Sublist (entries.map Prod.fst) (batch.map E.hex_decode) ∧
      (∀ key : String, registered w.torrents_list key = true →
        (entries.map Prod.fst).count key = (batch.map E.hex_decode).count key) ∧
      (∀ key : String, registered w.torrents_list key = true →
        2 ≤ (batch.map E.hex_decode).count key → ¬ (entries.map Prod.fst).Nodup) := by
  refine ⟨emitted E w.torrents_list batch, ?_, emitted_keys E _ batch, ?_, ?_, ?_⟩
  · simp only [scrape, scrape_loop_eq]
  · rw [emitted_keys]
    exact List.filter_sublist _
  · intro key hkey
    rw [emitted_keys]
    exact List.count_filter hkey
  · intro key hkey hcount hnodup
    rw [emitted_keys] at hnodup
    have h1 := List.nodup_iff_count_le_one.1 hnodup key
    rw [List.count_filter hkey] at h1
    omega

/-- Witness of C20: for the batch `hash_C, hash_A, hash_C` on the concrete registry
the body is `body_CAC`, with the entry of `hash_C` before that of `hash_A` and
once more after it, and the keys of the entries are not pairwise different. -/
theorem scrape_order_multiplicity_witness :
    (scrape demo_externs repeated_batch [] demo_opts demo_worker).1
      = response.http_response body_CAC demo_opts ∧
    ∃ entries : List (String × torrent),
      (scrape demo_externs repeated_batch [] demo_opts demo_worker).1
        = response.http_response
            ("d5:filesd" ++ concat_all (entries.map (fun e => scrape_entry e.1 e.2)) ++ "ee")
            demo_opts ∧
      ¬ (entries.map Prod.fst).Nodup :=
  ⟨rfl,
    (scrape_order_multiplicity demo_externs demo_worker [] demo_opts repeated_batch).elim
      (fun entries h => ⟨entries, h.1, h.2.2.2.2 hash_C (by decide) (by decide)⟩)⟩

end Ocelot
